import Mathlib

/-!
Shallow embedding of `server/configuration.go` from the
mattermost-plugin-analytics repository.

The Go file defines the plugin `configuration` struct, its validation
(`IsValid`), cloning, the lock-guarded getter/setter
(`getConfiguration`/`setConfiguration`), the host-change hook
(`OnConfigurationChange`) and the `TeamsChannels` resolution loop
(`parseChannelsFromConfig`).

Modelling choices:
* Go pointers to `configuration` are modelled as `Option (Nat × configuration)`:
  `none` is the nil pointer and `some (a, v)` is a pointer whose address is `a`
  and whose pointee is `v`.  Go pointer equality (`==`) is address equality.
* `strings.Split` / `strings.Count` are only used with the single-character
  separators `","` and `"/"`, so they are embedded as a character-based split
  (`goSplit`) and the derived count (`goCount`); for a non-empty separator Go
  guarantees `len(Split(s, sep)) = Count(s, sep) + 1`.
* Host API calls (`GetUserByUsername`, `GetTeamByName`, `GetChannelByName`,
  `LoadPluginConfiguration`) are an external environment, modelled as a record
  of functions returning `Option`/`Except` (`none`/`.error` is the Go non-nil
  error case).
* The resolution loop additionally records the sequence of host lookups it
  performs (a `List HostCall` trace), so that statements such as
  "`GetChannelByName` is never called for that pair" are expressible.
* `panic` is modelled as an explicit result constructor.
-/

/-- Result of one host lookup performed by `parseChannelsFromConfig`:
either a `GetTeamByName teamName` call or a
`GetChannelByName teamId channelName false` call. -/
inductive HostCall where
  | team : String → HostCall
  | channel : String → String → HostCall
deriving DecidableEq, Repr

/-- Embedding of the Go struct `configuration` from `configuration.go`:
four public string fields deserialized from the Mattermost server
configuration. -/
structure configuration where
  Username : String
  TeamsChannels : String
  BotUsername : String
  BotIconURL : String
deriving DecidableEq, Repr

/-- The Go zero value of `configuration` (what `&configuration{}` and
`new(configuration)` contain before any assignment): all four string fields
are the empty string. -/
def zeroConfiguration : configuration :=
  { Username := "", TeamsChannels := "", BotUsername := "", BotIconURL := "" }

/-- Embedding of `reflect.ValueOf(*configuration).NumField()`.  In Go,
`reflect.Value.NumField` returns the number of fields declared in the struct
TYPE, independent of the field values; the `configuration` struct type
declares four fields, so this is the constant 4 (also on a zero-valued
snapshot). -/
def goNumField (_ : configuration) : Nat := 4

/-- Splits a character list around every occurrence of `sep`, keeping empty
segments, exactly as Go `strings.Split` does for a one-character separator
(recursion over the characters from the left). -/
def splitCharAux (sep : Char) : List Char → List (List Char)
  | [] => [[]]
  | c :: cs =>
    let r := splitCharAux sep cs
    if c = sep then [] :: r
    else
      match r with
      | [] => [[c]]
      | h :: t => (c :: h) :: t

/-- Embedding of Go `strings.Split(s, sep)` for a one-character separator
`sep`: splits `s` around every occurrence of `sep`, keeping empty parts;
on the empty string it returns `[""]`, as Go does for a non-empty
separator. -/
def goSplit (s : String) (sep : Char) : List String :=
  (splitCharAux sep s.toList).map String.mk

/-- Embedding of Go `strings.Count(s, sep)` for a one-character separator:
the number of occurrences of `sep` in `s`, which for a non-empty separator
Go specifies as `len(strings.Split(s, sep)) - 1`. -/
def goCount (s : String) (sep : Char) : Nat :=
  (goSplit s sep).length - 1

/-- Embedding of `(c *configuration) IsValid() error` from `configuration.go`:
returns `some msg` for the first failing check (the Go `errors.New` message,
including its typo), `none` when all checks pass. -/
def IsValid (c : configuration) : Option String :=
  if c.Username = "" then some "Need a Username to make posts as"
  else if c.TeamsChannels = "" then some "Need TeamsChannels to post in"
  else if goCount c.TeamsChannels ',' + 1 ≠ goCount c.TeamsChannels '/' then
    some "TeamsChannels must be in ofrm TeamName/ChannelName"
  else if c.BotUsername = "" then some "Need BotUsername"
  else if c.BotIconURL = "" then some "Need BotIconURL"
  else none

/-- Embedding of `(c *configuration) Clone() *configuration`: a fresh pointer
(given a fresh address `a`) to a copy of the pointee. -/
def Clone (a : Nat) (c : configuration) : Option (Nat × configuration) :=
  some (a, c)

/-- Embedding of the Go `Team` struct as used here: only its `Id` field is
read. -/
structure Team where
  Id : String
deriving DecidableEq, Repr

/-- Embedding of the Go `Channel` struct as used here: only its `Id` field is
read. -/
structure Channel where
  Id : String
deriving DecidableEq, Repr

/-- Embedding of the Go `User` struct as used here: only its `Id` field is
read. -/
structure User where
  Id : String
deriving DecidableEq, Repr

/-- The host (Mattermost server) side of the plugin API, an external
dependency of `configuration.go`.  `none` / `.error` model the Go calls
returning a non-nil error. -/
structure HostEnv where
  loadPluginConfiguration : Except String configuration
  getUserByUsername : String → Option User
  getTeamByName : String → Option Team
  getChannelByName : String → String → Bool → Option Channel

/-- The fields of the Go `Plugin` struct that `configuration.go` reads or
writes: the guarded configuration pointer and the derived state
(`BotUserID`, `ChannelsID`).  The reader/writer lock serializes accesses but
adds no state of its own, so it is not represented. -/
structure Plugin where
  configuration : Option (Nat × configuration)
  BotUserID : String
  ChannelsID : List String
deriving DecidableEq, Repr

/-- Embedding of `(p *Plugin) getConfiguration() *configuration` followed by
the read of the pointee: under the read lock, if the stored pointer is nil it
returns `&configuration{}` (the zero value), otherwise the stored snapshot.
The Go method only reads `p.configuration`; it is side-effect-free, which the
embedding reflects by being a pure function of the plugin state. -/
def getConfiguration (p : Plugin) : configuration :=
  match p.configuration with
  | none => zeroConfiguration
  | some (_, c) => c

/-- Outcome of `setConfiguration`: either the Go `panic`, or normal return
with the new value of the `p.configuration` field. -/
inductive SetResult where
  | panicked : SetResult
  | ok : Option (Nat × configuration) → SetResult
deriving DecidableEq, Repr

/-- Embedding of `(p *Plugin) setConfiguration(configuration *configuration)`:
given the currently stored pointer and the argument pointer, it panics when
the argument is non-nil and address-equal to the stored pointer — unless the
struct type has zero fields (`reflect.ValueOf(*configuration).NumField() == 0`),
in which case it returns leaving the stored pointer unchanged — and otherwise
stores the argument. -/
def setConfiguration (stored next : Option (Nat × configuration)) : SetResult :=
  match next, stored with
  | some (a, v), some (a', _) =>
    if a = a' then
      if goNumField v = 0 then SetResult.ok stored
      else SetResult.panicked
    else SetResult.ok next
  | some _, none => SetResult.ok next
  | none, _ => SetResult.ok next

/-- Embedding of one iteration of the `parseChannelsFromConfig` loop body on
a single pair-string `s`: split `s` on `"/"`; if the result is not exactly
two parts, fail with the bad-format error (no host call made); otherwise look
up the team by name (failing with the team error) and then the channel by
name within that team (failing with the channel error), succeeding with the
channel's ID.  The first component records the host lookups performed, in
order; the second is the Go outcome of the iteration. -/
def resolveStep (env : HostEnv) (s : String) :
    List HostCall × Except String String :=
  match goSplit s '/' with
  | [teamName, channelName] =>
    match env.getTeamByName teamName with
    | none =>
        ([HostCall.team teamName],
          Except.error ("Unable to find team with configured team: " ++ teamName))
    | some team =>
      match env.getChannelByName team.Id channelName false with
      | none =>
          ([HostCall.team teamName, HostCall.channel team.Id channelName],
            Except.error ("Unable to find channel with configured channel: "
              ++ channelName))
      | some channel =>
          ([HostCall.team teamName, HostCall.channel team.Id channelName],
            Except.ok channel.Id)
  | _ => ([], Except.error ("Bad formatted TeamsChannels: " ++ s))

/-- Embedding of the `parseChannelsFromConfig` loop, recursing over the
pair-strings obtained from splitting `TeamsChannels` on `","` and running
`resolveStep` on each.  Returns `(trace, channelsID, err)`: the sequence of
host lookups performed, the Go `channelsID` slice as returned (on error this
is the partial slice accumulated so far, which the Go code returns alongside
the error), and the Go error (`some msg` with the `fmt.Errorf` message). -/
def resolvePairs (env : HostEnv) :
    List String → List HostCall × List String × Option String
  | [] => ([], [], none)
  | s :: rest =>
    let step := resolveStep env s
    match step.2 with
    | Except.error e => (step.1, [], some e)
    | Except.ok channelId =>
      let r := resolvePairs env rest
      (step.1 ++ r.1, channelId :: r.2.1, r.2.2)

/-- Embedding of `(p *Plugin) parseChannelsFromConfig(configuration)`:
splits `TeamsChannels` on `","` and resolves each pair-string via the host,
returning the lookup trace together with the Go return values. -/
def parseChannelsFromConfig (env : HostEnv) (c : configuration) :
    List HostCall × List String × Option String :=
  resolvePairs env (goSplit c.TeamsChannels ',')

/-- Outcome of `OnConfigurationChange`: either a panic propagated from
`setConfiguration`, or a normal return carrying the Go error value
(`none` = nil) and the resulting plugin state. -/
inductive OCCResult where
  | panicked : OCCResult
  | done : Option String → Plugin → OCCResult
deriving DecidableEq, Repr

/-- Embedding of `(p *Plugin) OnConfigurationChange() error`.  `fresh` is the
address of the `new(configuration)` allocation (fresh, hence distinct from
every live pointer; theorems carry this as a hypothesis).  Steps, as in the
Go source: load the fields from the host (wrapping a load error); publish the
fresh snapshot via `setConfiguration`; validate it, returning the validation
error with the snapshot still published; resolve the username, returning an
error if unknown, else assign `BotUserID`; resolve the channels, returning
the error without touching `ChannelsID` on failure, else assign
`ChannelsID`. -/
def OnConfigurationChange (fresh : Nat) (env : HostEnv) (p : Plugin) :
    OCCResult :=
  match env.loadPluginConfiguration with
  | Except.error e =>
      OCCResult.done (some ("failed to load plugin configuration: " ++ e)) p
  | Except.ok cfg =>
    match setConfiguration p.configuration (some (fresh, cfg)) with
    | SetResult.panicked => OCCResult.panicked
    | SetResult.ok newPtr =>
      let p1 : Plugin := { p with configuration := newPtr }
      match IsValid cfg with
      | some e => OCCResult.done (some e) p1
      | none =>
        match env.getUserByUsername cfg.Username with
        | none =>
            OCCResult.done
              (some ("Unable to find user with configured username: "
                ++ cfg.Username)) p1
        | some user =>
          let p2 : Plugin := { p1 with BotUserID := user.Id }
          let r := parseChannelsFromConfig env cfg
          match r.2.2 with
          | some e => OCCResult.done (some e) p2
          | none => OCCResult.done none { p2 with ChannelsID := r.2.1 }

/-- Resolution outcome of a single pair-string in isolation: `some channelId`
when the pair-string splits into exactly two parts and both host lookups
succeed, `none` otherwise.  Used to state the order of the resolved
channel-ID list and the "earlier pairs resolve" hypotheses. -/
def resolveOne (env : HostEnv) (s : String) : Option String :=
  ((resolveStep env s).2).toOption

/-- A host environment in which every lookup fails and loading fails; used to
instantiate universally quantified statements. -/
def emptyEnv : HostEnv :=
  { loadPluginConfiguration := Except.error "io"
    getUserByUsername := fun _ => none
    getTeamByName := fun _ => none
    getChannelByName := fun _ _ _ => none }

/-- A configuration whose `TeamsChannels` is the single pair-string `"/"`
(empty team name and empty channel name); it passes the `IsValid` format
check (0 commas + 1 = 1 slash). -/
def slashConfig : configuration :=
  { Username := "u", TeamsChannels := "/", BotUsername := "b", BotIconURL := "i" }

/-- A host environment that resolves the empty team name to team `T0` and the
empty channel name inside `T0` to channel `C0`.  Nothing in the host
contract forbids empty names, and the Go code never checks the split parts
for emptiness. -/
def slashEnv : HostEnv :=
  { loadPluginConfiguration := Except.ok slashConfig
    getUserByUsername := fun _ => none
    getTeamByName := fun t => if t = "" then some { Id := "T0" } else none
    getChannelByName := fun tid cn _ =>
      if tid = "T0" ∧ cn = "" then some { Id := "C0" } else none }

/-- The valid configuration `"A/B,C/D"` used by the resolution examples. -/
def cexConfig : configuration :=
  { Username := "alice", TeamsChannels := "A/B,C/D", BotUsername := "b",
    BotIconURL := "i" }

/-- A host environment that resolves user `alice` to `U1`, team `A` to `TA`
and channel `B` inside `TA` to `CB`, but cannot resolve team `C`. -/
def cexEnv : HostEnv :=
  { loadPluginConfiguration := Except.ok cexConfig
    getUserByUsername := fun n => if n = "alice" then some { Id := "U1" } else none
    getTeamByName := fun t => if t = "A" then some { Id := "TA" } else none
    getChannelByName := fun tid cn _ =>
      if tid = "TA" ∧ cn = "B" then some { Id := "CB" } else none }

/-- A host environment that resolves user `alice` to `U1`, teams `A` and `C`
to `TA` and `TC`, and channels `B` in `TA` and `D` in `TC` to `CB` and
`CD`. -/
def fullEnv : HostEnv :=
  { loadPluginConfiguration := Except.ok cexConfig
    getUserByUsername := fun n => if n = "alice" then some { Id := "U1" } else none
    getTeamByName := fun t =>
      if t = "A" then some { Id := "TA" }
      else if t = "C" then some { Id := "TC" } else none
    getChannelByName := fun tid cn _ =>
      if tid = "TA" ∧ cn = "B" then some { Id := "CB" }
      else if tid = "TC" ∧ cn = "D" then some { Id := "CD" } else none }

/-- A plugin state with no published configuration and empty derived state
(the Go zero value of the relevant `Plugin` fields). -/
def zeroPlugin : Plugin :=
  { configuration := none, BotUserID := "", ChannelsID := [] }

/-- The configuration `"Sales/General"` of the worked example. -/
def salesConfig : configuration :=
  { Username := "u", TeamsChannels := "Sales/General", BotUsername := "b",
    BotIconURL := "i" }

/-- A host environment in which team `Sales` resolves to ID `T1` and channel
`General` within `T1` resolves to `C1`. -/
def salesEnv : HostEnv :=
  { loadPluginConfiguration := Except.ok salesConfig
    getUserByUsername := fun _ => none
    getTeamByName := fun t => if t = "Sales" then some { Id := "T1" } else none
    getChannelByName := fun tid cn _ =>
      if tid = "T1" ∧ cn = "General" then some { Id := "C1" } else none }

/-- The configuration `"A/B/C,D"`: 1 comma + 1 = 2 slashes, so it passes the
`IsValid` format check, yet its first pair-string `"A/B/C"` splits into three
parts. -/
def thinConfig : configuration :=
  { Username := "u", TeamsChannels := "A/B/C,D", BotUsername := "b",
    BotIconURL := "i" }

/-- If the tail errors, the whole resolution errors (possibly earlier and
with a different message): the error component stays `some`. -/
theorem resolvePairs_append_isSome (env : HostEnv) (l₂ : List String)
    (h : ((resolvePairs env l₂).2.2).isSome) :
    ∀ l₁ : List String, ((resolvePairs env (l₁ ++ l₂)).2.2).isSome := by
  intro l₁
  induction l₁ with
  | nil => simpa using h
  | cons s l ih =>
    simp only [List.cons_append, resolvePairs]
    cases hs : (resolveStep env s).2 with
    | error e => simp
    | ok cid => simpa using ih

/-- A pair-string that does not split into exactly two parts makes its own
`resolveStep` fail with the bad-format error, making no host call. -/
theorem resolveStep_format_error (env : HostEnv) (s : String)
    (h : (goSplit s '/').length ≠ 2) :
    resolveStep env s = ([], Except.error ("Bad formatted TeamsChannels: " ++ s)) := by
  unfold resolveStep
  cases hs : goSplit s '/' with
  | nil => rfl
  | cons a t =>
    cases t with
    | nil => rfl
    | cons b t2 =>
      cases t2 with
      | nil => exact absurd (by rw [hs]; rfl) h
      | cons c t3 => rfl

/-- If some pair-string in the list does not split into exactly two parts,
the whole resolution errors. -/
theorem resolvePairs_bad_format_isSome (env : HostEnv) (l₁ : List String)
    (s : String) (l₂ : List String) (h : (goSplit s '/').length ≠ 2) :
    ((resolvePairs env (l₁ ++ s :: l₂)).2.2).isSome := by
  apply resolvePairs_append_isSome
  simp only [resolvePairs, resolveStep_format_error env s h, Option.isSome_some]

/-- On success, the resolved channel-ID list is the per-pair resolution of
the pair-strings, in the order of the pair-strings. -/
theorem resolvePairs_ids_ordered (env : HostEnv) :
    ∀ l : List String, (resolvePairs env l).2.2 = none →
      l.map (resolveOne env) = ((resolvePairs env l).2.1).map some := by
  intro l
  induction l with
  | nil => intro _; rfl
  | cons s rest ih =>
    intro h
    simp only [resolvePairs] at h ⊢
    cases hs : (resolveStep env s).2 with
    | error e => rw [hs] at h; simp at h
    | ok cid =>
      rw [hs] at h
      simp only at h
      simp only [List.map_cons, resolveOne, hs, Except.toOption, ih h]

/-- A pair-string whose two parts name an unresolvable team makes its
`resolveStep` fail right after the team lookup: the only host call made is
`GetTeamByName`; no `GetChannelByName` call occurs for this pair. -/
theorem resolveStep_team_fail (env : HostEnv) (s t c : String)
    (h2 : goSplit s '/' = [t, c]) (h3 : env.getTeamByName t = none) :
    resolveStep env s =
      ([HostCall.team t],
        Except.error ("Unable to find team with configured team: " ++ t)) := by
  simp only [resolveStep, h2, h3]

/-- Resolution distributes over a prefix whose pair-strings all resolve: the
traces and the channel-ID lists concatenate, and the error is the error of
the remainder. -/
theorem resolvePairs_ok_front (env : HostEnv) :
    ∀ l₁ : List String, (∀ x ∈ l₁, (resolveOne env x).isSome) →
      ∀ l₂ : List String,
        resolvePairs env (l₁ ++ l₂)
          = ((resolvePairs env l₁).1 ++ (resolvePairs env l₂).1,
             (resolvePairs env l₁).2.1 ++ (resolvePairs env l₂).2.1,
             (resolvePairs env l₂).2.2) := by
  intro l₁
  induction l₁ with
  | nil => intro _ l₂; simp [resolvePairs]
  | cons x l ih =>
    intro h1 l₂
    have hx : (resolveOne env x).isSome := h1 x (List.mem_cons_self x l)
    cases hs : (resolveStep env x).2 with
    | error e => rw [resolveOne, hs] at hx; simp [Except.toOption] at hx
    | ok cid =>
      have hl : ∀ y ∈ l, (resolveOne env y).isSome :=
        fun y hy => h1 y (List.mem_cons_of_mem x hy)
      simp only [List.cons_append, resolvePairs, hs, List.append_eq]
      rw [ih hl l₂]
      simp [List.append_assoc]

/-- `setConfiguration` called with a pointer whose address is fresh (distinct
from the stored pointer's address) stores it without panicking. -/
theorem setConfiguration_fresh (stored : Option (Nat × configuration))
    (fresh : Nat) (v : configuration)
    (h : ∀ a x, stored = some (a, x) → a ≠ fresh) :
    setConfiguration stored (some (fresh, v)) = SetResult.ok (some (fresh, v)) := by
  cases stored with
  | none => rfl
  | some q =>
    obtain ⟨a, x⟩ := q
    have hne : ¬ fresh = a := fun hh => (h a x rfl) hh.symm
    simp only [setConfiguration]
    rw [if_neg hne]

/-- Evaluation of `OnConfigurationChange` when loading, validation and the
user lookup all succeed: the outcome is decided by the channel resolution,
with the snapshot published and `BotUserID` assigned in either case, and
`ChannelsID` assigned only on full success. -/
theorem OnConfigurationChange_resolution (fresh : Nat) (env : HostEnv)
    (p : Plugin) (cfg : configuration) (u : User)
    (hfresh : ∀ a x, p.configuration = some (a, x) → a ≠ fresh)
    (hload : env.loadPluginConfiguration = Except.ok cfg)
    (hvalid : IsValid cfg = none)
    (huser : env.getUserByUsername cfg.Username = some u) :
    OnConfigurationChange fresh env p =
      match (parseChannelsFromConfig env cfg).2.2 with
      | some e => OCCResult.done (some e)
          { p with configuration := some (fresh, cfg), BotUserID := u.Id }
      | none => OCCResult.done none
          { p with
              configuration := some (fresh, cfg)
              BotUserID := u.Id
              ChannelsID := (parseChannelsFromConfig env cfg).2.1 } := by
  simp only [OnConfigurationChange, hload,
    setConfiguration_fresh p.configuration fresh cfg hfresh, hvalid, huser]

/-- Evaluation of `OnConfigurationChange` when loading succeeds but
validation fails: the validation error is returned with the freshly loaded
snapshot published and the derived state untouched. -/
theorem OnConfigurationChange_invalid (fresh : Nat) (env : HostEnv)
    (p : Plugin) (cfg : configuration) (e : String)
    (hfresh : ∀ a x, p.configuration = some (a, x) → a ≠ fresh)
    (hload : env.loadPluginConfiguration = Except.ok cfg)
    (hvalid : IsValid cfg = some e) :
    OnConfigurationChange fresh env p =
      OCCResult.done (some e) { p with configuration := some (fresh, cfg) } := by
  simp only [OnConfigurationChange, hload,
    setConfiguration_fresh p.configuration fresh cfg hfresh, hvalid]

/-- A plugin state with no published configuration but stale derived state,
used to observe which derived fields a change event overwrites. -/
def stalePlugin : Plugin :=
  { configuration := none, BotUserID := "stale", ChannelsID := ["staleC"] }

/-- The configuration `"A/B,C"` of the worked failure example. -/
def abcConfig : configuration :=
  { Username := "u", TeamsChannels := "A/B,C", BotUsername := "b",
    BotIconURL := "i" }

/-- A configuration with non-empty `Username`, malformed (but non-empty)
`TeamsChannels`, empty `BotUsername` and non-empty `BotIconURL`. -/
def malformedConfig : configuration :=
  { Username := "u", TeamsChannels := "x", BotUsername := "", BotIconURL := "i" }

/-- A host environment whose configuration store holds the zero-valued (and
hence invalid) configuration. -/
def invalidLoadEnv : HostEnv :=
  { loadPluginConfiguration := Except.ok zeroConfiguration
    getUserByUsername := fun _ => none
    getTeamByName := fun _ => none
    getChannelByName := fun _ _ _ => none }

/-- C1 counterexample: calling `setConfiguration` with the exact same non-nil
reference as the stored one panics even when the snapshot is the zero value
(all four fields empty), contrary to the claimed exemption — the guard's
escape hatch tests `NumField() == 0`, a property of the struct type (which
has four fields), not of the field values. -/
theorem C1_cex :
    setConfiguration (some (0, zeroConfiguration)) (some (0, zeroConfiguration))
      = SetResult.panicked := by decide

/-- C1 (amended): every call to `setConfiguration` whose argument is the
exact same non-nil reference as the currently stored configuration panics,
with no exemption for the zero-valued snapshot: the `NumField() == 0` escape
concerns zero-field struct types, and the `configuration` type has four
fields whatever their values. -/
theorem C1_main (a : Nat) (v w : configuration) :
    setConfiguration (some (a, w)) (some (a, v)) = SetResult.panicked := by
  simp [setConfiguration, goNumField]

/-- C1 witness: the amended statement evaluated on a concrete same-address
pair. -/
theorem C1_witness :
    setConfiguration (some (7, cexConfig)) (some (7, zeroConfiguration))
      = SetResult.panicked :=
  C1_main 7 zeroConfiguration cexConfig

/-- C2 counterexample: the pair-string `"/"` splits into two EMPTY parts, so
it does not split into two non-empty parts, yet under a host that resolves
the empty team and channel names the whole operation succeeds (error `none`,
resolved list `["C0"]`): the code checks only the part count, not
non-emptiness. -/
theorem C2_cex :
    goSplit slashConfig.TeamsChannels ',' = ["/"]
    ∧ goSplit "/" '/' = ["", ""]
    ∧ parseChannelsFromConfig slashEnv slashConfig
        = ([HostCall.team "", HostCall.channel "T0" ""], ["C0"], none) := by
  decide

/-- C2 (amended): `parseChannelsFromConfig` splits `TeamsChannels` on `","`
and each pair-string on `"/"`; whenever some pair-string does not split into
exactly two parts (parts may be empty), the whole operation fails, for every
host environment.  `"A/B,C/D"` splits into the pairs `("A","B")` and
`("C","D")` and, under a host resolving them, performs exactly those four
lookups in order and succeeds; `"A/B,C"` fails for every host
environment. -/
theorem C2_main :
    (∀ (env : HostEnv) (l₁ : List String) (s : String) (l₂ : List String),
        (goSplit s '/').length ≠ 2 →
        ((resolvePairs env (l₁ ++ s :: l₂)).2.2).isSome)
    ∧ goSplit "A/B,C/D" ',' = ["A/B", "C/D"]
    ∧ goSplit "A/B" '/' = ["A", "B"]
    ∧ goSplit "C/D" '/' = ["C", "D"]
    ∧ parseChannelsFromConfig fullEnv cexConfig
        = ([HostCall.team "A", HostCall.channel "TA" "B",
            HostCall.team "C", HostCall.channel "TC" "D"], ["CB", "CD"], none)
    ∧ ∀ env : HostEnv, ((parseChannelsFromConfig env abcConfig).2.2).isSome := by
  refine ⟨?_, by decide, by decide, by decide, by decide, ?_⟩
  · intro env l₁ s l₂ h
    exact resolvePairs_bad_format_isSome env l₁ s l₂ h
  · intro env
    have hs : goSplit abcConfig.TeamsChannels ',' = ["A/B", "C"] := by decide
    rw [parseChannelsFromConfig, hs]
    exact resolvePairs_bad_format_isSome env ["A/B"] "C" [] (by decide)

/-- C2 witness: the bad-format clause of the amended statement evaluated on a
concrete environment and list. -/
theorem C2_witness :
    ((resolvePairs emptyEnv (["A/B"] ++ "C" :: [])).2.2).isSome :=
  C2_main.1 emptyEnv ["A/B"] "C" [] (by decide)

/-- C3 counterexample: an execution of `OnConfigurationChange` in which the
user lookup succeeds but channel resolution fails updates `BotUserID` (from
`"stale"` to `"U1"`) while leaving `ChannelsID` untouched (`["staleC"]`), so
the two derived fields are NOT always updated together. -/
theorem C3_cex :
    OnConfigurationChange 0 cexEnv stalePlugin
      = OCCResult.done (some "Unable to find team with configured team: C")
          { configuration := some (0, cexConfig), BotUserID := "U1",
            ChannelsID := ["staleC"] }
    ∧ stalePlugin.BotUserID = "stale"
    ∧ stalePlugin.ChannelsID = ["staleC"] := by
  decide

/-- C3 (amended): after a successful load, validation and user lookup,
`OnConfigurationChange` assigns `BotUserID` unconditionally; when channel
resolution then fails it returns the error with `ChannelsID` left unchanged,
and only when resolution succeeds are `BotUserID` and `ChannelsID` both
updated (together with the published snapshot). -/
theorem C3_main (fresh : Nat) (env : HostEnv) (p : Plugin)
    (cfg : configuration) (u : User)
    (hfresh : ∀ a x, p.configuration = some (a, x) → a ≠ fresh)
    (hload : env.loadPluginConfiguration = Except.ok cfg)
    (hvalid : IsValid cfg = none)
    (huser : env.getUserByUsername cfg.Username = some u) :
    (∀ e, (parseChannelsFromConfig env cfg).2.2 = some e →
        OnConfigurationChange fresh env p = OCCResult.done (some e)
          { p with configuration := some (fresh, cfg), BotUserID := u.Id })
    ∧ ((parseChannelsFromConfig env cfg).2.2 = none →
        OnConfigurationChange fresh env p = OCCResult.done none
          { p with
              configuration := some (fresh, cfg)
              BotUserID := u.Id
              ChannelsID := (parseChannelsFromConfig env cfg).2.1 }) := by
  have h := OnConfigurationChange_resolution fresh env p cfg u hfresh hload
    hvalid huser
  constructor
  · intro e he
    rw [h, he]
  · intro he
    rw [h, he]

/-- C3 witness: the amended statement's failure clause evaluated on the
concrete counterexample inputs. -/
theorem C3_witness :
    OnConfigurationChange 0 cexEnv stalePlugin
      = OCCResult.done (some "Unable to find team with configured team: C")
          { stalePlugin with
              configuration := some (0, cexConfig)
              BotUserID := "U1" } :=
  (C3_main 0 cexEnv stalePlugin cexConfig { Id := "U1" }
      (fun _ _ h => Option.noConfusion h) rfl (by decide) (by decide)).1
    "Unable to find team with configured team: C" (by decide)

/-- C4: when loading succeeds but validation of the freshly loaded snapshot
fails, `OnConfigurationChange` returns the validation error and the invalid
snapshot remains published: a subsequent `getConfiguration` returns the
freshly loaded snapshot, and the derived state is untouched. -/
theorem C4_main (fresh : Nat) (env : HostEnv) (p : Plugin)
    (cfg : configuration) (e : String)
    (hfresh : ∀ a x, p.configuration = some (a, x) → a ≠ fresh)
    (hload : env.loadPluginConfiguration = Except.ok cfg)
    (hvalid : IsValid cfg = some e) :
    OnConfigurationChange fresh env p
      = OCCResult.done (some e) { p with configuration := some (fresh, cfg) }
    ∧ getConfiguration { p with configuration := some (fresh, cfg) } = cfg :=
  ⟨OnConfigurationChange_invalid fresh env p cfg e hfresh hload hvalid, rfl⟩

/-- C4 witness: the statement evaluated on a host whose store holds the
zero-valued (hence invalid) configuration. -/
theorem C4_witness :
    OnConfigurationChange 3 invalidLoadEnv stalePlugin
      = OCCResult.done (some "Need a Username to make posts as")
          { stalePlugin with configuration := some (3, zeroConfiguration) }
    ∧ getConfiguration
        { stalePlugin with configuration := some (3, zeroConfiguration) }
      = zeroConfiguration :=
  C4_main 3 invalidLoadEnv stalePlugin zeroConfiguration
    "Need a Username to make posts as"
    (fun _ _ h => Option.noConfusion h) rfl (by decide)

/-- C5: when the pair-strings before `s` all resolve and `s` names an
unresolvable team `t`, resolution fails with the team error right after the
`GetTeamByName t` call: the trace is that of the earlier pairs followed by
the team lookup only (every `GetChannelByName` call in it belongs to an
earlier pair), the returned partial list is that of the earlier pairs, and
`OnConfigurationChange` on a matching configuration returns the error leaving
`ChannelsID` (and everything but the snapshot and `BotUserID`)
unchanged. -/
theorem C5_main (env : HostEnv) (l₁ : List String) (s : String)
    (l₂ : List String) (t c : String)
    (h1 : ∀ x ∈ l₁, (resolveOne env x).isSome)
    (h2 : goSplit s '/' = [t, c])
    (h3 : env.getTeamByName t = none) :
    resolvePairs env (l₁ ++ s :: l₂)
      = ((resolvePairs env l₁).1 ++ [HostCall.team t],
          (resolvePairs env l₁).2.1,
          some ("Unable to find team with configured team: " ++ t))
    ∧ (∀ tid cn, HostCall.channel tid cn ∈ (resolvePairs env (l₁ ++ s :: l₂)).1 →
          HostCall.channel tid cn ∈ (resolvePairs env l₁).1)
    ∧ ∀ (fresh : Nat) (p : Plugin) (cfg : configuration) (u : User),
        (∀ a x, p.configuration = some (a, x) → a ≠ fresh) →
        env.loadPluginConfiguration = Except.ok cfg →
        IsValid cfg = none →
        env.getUserByUsername cfg.Username = some u →
        goSplit cfg.TeamsChannels ',' = l₁ ++ s :: l₂ →
        OnConfigurationChange fresh env p
          = OCCResult.done
              (some ("Unable to find team with configured team: " ++ t))
              { p with configuration := some (fresh, cfg), BotUserID := u.Id } := by
  have hstep := resolveStep_team_fail env s t c h2 h3
  have hfail : resolvePairs env (s :: l₂)
      = ([HostCall.team t], [],
          some ("Unable to find team with configured team: " ++ t)) := by
    simp only [resolvePairs, hstep]
  have hmain : resolvePairs env (l₁ ++ s :: l₂)
      = ((resolvePairs env l₁).1 ++ [HostCall.team t],
          (resolvePairs env l₁).2.1,
          some ("Unable to find team with configured team: " ++ t)) := by
    rw [resolvePairs_ok_front env l₁ h1 (s :: l₂), hfail]
    simp
  refine ⟨hmain, ?_, ?_⟩
  · intro tid cn hm
    rw [hmain] at hm
    rcases List.mem_append.mp hm with h | h
    · exact h
    · simp at h
  · intro fresh p cfg u hf hl hv hu hs
    have h := OnConfigurationChange_resolution fresh env p cfg u hf hl hv hu
    have hp : parseChannelsFromConfig env cfg
        = resolvePairs env (l₁ ++ s :: l₂) := by
      rw [parseChannelsFromConfig, hs]
    rw [h, hp, hmain]

/-- C5 witness: the trace clause evaluated on the concrete environment that
resolves the pair `"A/B"` but not team `"C"`. -/
theorem C5_witness :
    resolvePairs cexEnv (["A/B"] ++ "C/D" :: [])
      = ((resolvePairs cexEnv ["A/B"]).1 ++ [HostCall.team "C"],
          (resolvePairs cexEnv ["A/B"]).2.1,
          some ("Unable to find team with configured team: " ++ "C")) :=
  (C5_main cexEnv ["A/B"] "C/D" [] "C" "D" (by decide) (by decide) (by decide)).1

/-- C6 counterexample: a snapshot whose required field `BotUsername` is empty
but whose (non-empty) `TeamsChannels` is malformed fails validation with the
format error, which does not name `BotUsername` — so validation does not
always fail "naming that field" for an empty required field. -/
theorem C6_cex :
    malformedConfig.BotUsername = ""
    ∧ IsValid malformedConfig
        = some "TeamsChannels must be in ofrm TeamName/ChannelName"
    ∧ IsValid malformedConfig ≠ some "Need BotUsername" := by
  decide

/-- C6 (amended): `IsValid` returns the first applicable error in the exact
order (empty `Username`, empty `TeamsChannels`, malformed `TeamsChannels`,
empty `BotUsername`, empty `BotIconURL`), returns no error exactly when none
of the conditions holds, and fails (with the first applicable error, which
names that field only when no earlier check fires) whenever any of the four
required fields is empty. -/
theorem C6_main (c : configuration) :
    (c.Username = "" → IsValid c = some "Need a Username to make posts as")
    ∧ (c.Username ≠ "" → c.TeamsChannels = "" →
        IsValid c = some "Need TeamsChannels to post in")
    ∧ (c.Username ≠ "" → c.TeamsChannels ≠ "" →
        goCount c.TeamsChannels ',' + 1 ≠ goCount c.TeamsChannels '/' →
        IsValid c = some "TeamsChannels must be in ofrm TeamName/ChannelName")
    ∧ (c.Username ≠ "" → c.TeamsChannels ≠ "" →
        goCount c.TeamsChannels ',' + 1 = goCount c.TeamsChannels '/' →
        c.BotUsername = "" → IsValid c = some "Need BotUsername")
    ∧ (c.Username ≠ "" → c.TeamsChannels ≠ "" →
        goCount c.TeamsChannels ',' + 1 = goCount c.TeamsChannels '/' →
        c.BotUsername ≠ "" → c.BotIconURL = "" →
        IsValid c = some "Need BotIconURL")
    ∧ (IsValid c = none ↔
        c.Username ≠ "" ∧ c.TeamsChannels ≠ ""
        ∧ goCount c.TeamsChannels ',' + 1 = goCount c.TeamsChannels '/'
        ∧ c.BotUsername ≠ "" ∧ c.BotIconURL ≠ "")
    ∧ ((c.Username = "" ∨ c.TeamsChannels = "" ∨ c.BotUsername = ""
        ∨ c.BotIconURL = "") → (IsValid c).isSome) := by
  by_cases h1 : c.Username = "" <;>
    by_cases h2 : c.TeamsChannels = "" <;>
    by_cases h3 : goCount c.TeamsChannels ',' + 1 = goCount c.TeamsChannels '/' <;>
    by_cases h4 : c.BotUsername = "" <;>
    by_cases h5 : c.BotIconURL = "" <;>
    simp [IsValid, h1, h2, h3, h4, h5]

/-- C6 witness: the first-error clause evaluated on the zero-valued
snapshot. -/
theorem C6_witness :
    IsValid zeroConfiguration = some "Need a Username to make posts as" :=
  (C6_main zeroConfiguration).1 rfl

/-- C7: under the host where team `Sales` resolves to `T1` and channel
`General` within `T1` resolves to `C1`, `TeamsChannels` input
`"Sales/General"` resolves to exactly the channel-ID list `["C1"]` (with
exactly the two chained lookups); and in general, on success the resolved
channel-ID list is the per-pair resolution of the pair-strings in the order
of the pairs in the `TeamsChannels` string. -/
theorem C7_main :
    parseChannelsFromConfig salesEnv salesConfig
      = ([HostCall.team "Sales", HostCall.channel "T1" "General"], ["C1"], none)
    ∧ ∀ (env : HostEnv) (l : List String), (resolvePairs env l).2.2 = none →
        l.map (resolveOne env) = ((resolvePairs env l).2.1).map some :=
  ⟨by decide, fun env l h => resolvePairs_ids_ordered env l h⟩

/-- C7 witness: the order clause evaluated on the `Sales/General`
example. -/
theorem C7_witness :
    (["Sales/General"] : List String).map (resolveOne salesEnv)
      = ((resolvePairs salesEnv ["Sales/General"]).2.1).map some :=
  C7_main.2 salesEnv ["Sales/General"] (by decide)

/-- C8: `getConfiguration` never fails and is side-effect-free (it is a pure
function of the plugin state): it returns the published snapshot when one is
stored, and the zero-valued snapshot (all four fields empty) when the stored
reference is nil. -/
theorem C8_main (p : Plugin) :
    (p.configuration = none →
      getConfiguration p
        = { Username := "", TeamsChannels := "", BotUsername := "",
            BotIconURL := "" })
    ∧ ∀ a c, p.configuration = some (a, c) → getConfiguration p = c := by
  constructor
  · intro h
    simp [getConfiguration, h, zeroConfiguration]
  · intro a c h
    simp [getConfiguration, h]

/-- C8 witness: the nil clause evaluated on the plugin state with no
published configuration. -/
theorem C8_witness :
    getConfiguration zeroPlugin
      = { Username := "", TeamsChannels := "", BotUsername := "",
          BotIconURL := "" } :=
  (C8_main zeroPlugin).1 rfl

/-- C9: calling `setConfiguration` with a nil argument never panics whatever
is currently stored (the guard requires a non-nil argument): it stores nil,
after which `getConfiguration` returns the zero-valued snapshot. -/
theorem C9_main (p : Plugin) :
    setConfiguration p.configuration none = SetResult.ok none
    ∧ getConfiguration { p with configuration := none }
        = { Username := "", TeamsChannels := "", BotUsername := "",
            BotIconURL := "" } := by
  constructor
  · cases p.configuration with
    | none => rfl
    | some q => rfl
  · rfl

/-- C9 witness: the statement evaluated on a plugin state with stale derived
fields. -/
theorem C9_witness :
    setConfiguration stalePlugin.configuration none = SetResult.ok none
    ∧ getConfiguration { stalePlugin with configuration := none }
        = { Username := "", TeamsChannels := "", BotUsername := "",
            BotIconURL := "" } :=
  C9_main stalePlugin

/-- C10: passing validation does not guarantee parseability: the snapshot
with `TeamsChannels = "A/B/C,D"` (1 comma and 2 slashes) passes `IsValid`,
yet `parseChannelsFromConfig` fails on it for every host environment, since
its first pair-string `"A/B/C"` splits into three parts. -/
theorem C10_main :
    IsValid thinConfig = none
    ∧ ∀ env : HostEnv, ((parseChannelsFromConfig env thinConfig).2.2).isSome := by
  constructor
  · decide
  · intro env
    have hs : goSplit thinConfig.TeamsChannels ',' = ["A/B/C", "D"] := by decide
    rw [parseChannelsFromConfig, hs]
    exact resolvePairs_bad_format_isSome env [] "A/B/C" ["D"] (by decide)

/-- C10 witness: the parse-failure clause evaluated on the all-failing host
environment. -/
theorem C10_witness :
    ((parseChannelsFromConfig emptyEnv thinConfig).2.2).isSome :=
  C10_main.2 emptyEnv
